import Mathlib

/-!
# Verification of the contact-form and particle-background widgets

Shallow embedding of the two client-side components of this repository:

* the contact form (schema validation, phone-number formatting on blur, and
  the JSON submission flow of `onSubmit`), and
* the particle background's unmount cleanup that removes injected script tags.

JavaScript strings are modelled as Lean `String`s viewed through their
character lists (`String.data`); string lengths count characters.  The
stateful React component is modelled by explicit state passing: the pair of
`useState` cells `isSubmitting` and `status`, together with the displayed field
values, form a `FormState`, and the async `onSubmit` handler becomes a function
from the validated data, the pre-call state and the outcome of the `fetch`
call to the final state plus the list of HTTP requests it issued.
-/

set_option autoImplicit false

namespace Portfolio

/-! ### Phone-number formatting (`formatPhoneNumber`, part_000 lines 47-55) -/

/-- `input.replace(/\D/g, "")`: the digit characters of the input, in order. -/
def stripNonDigits (s : String) : List Char :=
  s.data.filter Char.isDigit

/-- The branch structure of `formatPhoneNumber` on the stripped digit list:
`slice(0,2)` is `take 2`, `slice(2,7)` is `(drop 2).take 5`, `slice(7,11)` is
`(drop 7).take 4`, `slice(2,6)` is `(drop 2).take 4`, `slice(6,10)` is
`(drop 6).take 4`, and `slice(2)` is `drop 2`. -/
def formatDigits (d : List Char) : List Char :=
  if 11 ≤ d.length then
    '(' :: d.take 2 ++ ')' :: ' ' :: ((d.drop 2).take 5 ++ '-' :: (d.drop 7).take 4)
  else if 10 ≤ d.length then
    '(' :: d.take 2 ++ ')' :: ' ' :: ((d.drop 2).take 4 ++ '-' :: (d.drop 6).take 4)
  else if 2 ≤ d.length then
    '(' :: d.take 2 ++ ')' :: ' ' :: d.drop 2
  else d

/-- part_000 lines 47-55: strip all non-digits, then format by digit count. -/
def formatPhoneNumber (input : String) : String :=
  String.mk (formatDigits (stripNonDigits input))

/-! ### The submission regex `^\(\d{2}\) \d{4,5}-\d{4}$` (part_000 line 12)

Encoded as a deterministic consumer over the character list.  The alternation
`\d{4,5}` is resolved by trying the four-digit continuation and the five-digit
continuation; the two are disjoint because `-` is not a digit, so this matches
exactly the anchored regex. -/

/-- Consume exactly `n` digit characters, returning the rest of the input. -/
def consumeDigits : Nat → List Char → Option (List Char)
  | 0, l => some l
  | _ + 1, [] => none
  | n + 1, c :: l => if Char.isDigit c then consumeDigits n l else none

/-- Consume one literal character, returning the rest of the input. -/
def consumeLit (c : Char) : List Char → Option (List Char)
  | [] => none
  | c' :: l => if c' = c then some l else none

/-- The rest of the input after the mandatory prefix `\(\d{2}\) `. -/
def phonePrefixRest (s : String) : Option (List Char) :=
  (((consumeLit '(' s.data).bind (consumeDigits 2)).bind
    (consumeLit ')')).bind (consumeLit ' ')

/-- Whether the whole string matches `^\(\d{2}\) \d{4,5}-\d{4}$`: after the
prefix come four digits, then either directly `-\d{4}` and the end of the
input, or a fifth digit followed by `-\d{4}` and the end of the input. -/
def phoneRegexMatch (s : String) : Bool :=
  (((phonePrefixRest s).bind (consumeDigits 4)).bind
      (fun r2 => (consumeLit '-' r2).bind (consumeDigits 4)) == some []) ||
    (((phonePrefixRest s).bind (consumeDigits 4)).bind
      (fun r2 => ((consumeDigits 1 r2).bind (consumeLit '-')).bind (consumeDigits 4))
      == some [])

/-! ### The contact schema (part_000 lines 9-14) -/

/-- JavaScript `String.prototype.trim`: whitespace removed from both ends. -/
def jsTrim (s : String) : String :=
  String.mk (((s.data.dropWhile Char.isWhitespace).reverse.dropWhile
    Char.isWhitespace).reverse)

/-- A character allowed in the local part of an email address. -/
def emailLocalChar (c : Char) : Bool :=
  c.isAlphanum || c = '_' || c.toNat = 39 || c = '+' || c = '-' || c = '.'

/-- A character allowed as the last local-part character (no dot). -/
def emailLocalEndChar (c : Char) : Bool :=
  c.isAlphanum || c = '_' || c.toNat = 39 || c = '+' || c = '-'

/-- No two consecutive dots. -/
def noDoubleDot : List Char → Bool
  | '.' :: '.' :: _ => false
  | _ :: l => noDoubleDot l
  | [] => true

/-- Split at the first occurrence of `c`, if any. -/
def splitAtChar (c : Char) : List Char → Option (List Char × List Char)
  | [] => none
  | x :: l =>
    if x = c then some ([], l)
    else (splitAtChar c l).map (fun p => (x :: p.1, p.2))

/-- Local part: nonempty, allowed characters, does not start with a dot, no
double dot, ends in a non-dot allowed character. -/
def emailLocalOk (l : List Char) : Bool :=
  match l with
  | [] => false
  | c :: _ =>
    !(c = '.') && l.all emailLocalChar && noDoubleDot l &&
      (match l.getLast? with
       | some e => emailLocalEndChar e
       | none => false)

/-- A non-final domain label: starts alphanumeric, then alphanumerics or `-`. -/
def emailLabelOk (l : List Char) : Bool :=
  match l with
  | [] => false
  | c :: rest => c.isAlphanum && rest.all (fun x => x.isAlphanum || x = '-')

/-- The final label: at least two letters. -/
def emailTldOk (l : List Char) : Bool :=
  2 ≤ l.length && l.all Char.isAlpha

/-- Domain: two or more dot-separated labels, the last being a TLD. -/
def emailDomainOk (l : List Char) : Bool :=
  let labels := List.splitOn '.' l
  2 ≤ labels.length && labels.dropLast.all emailLabelOk &&
    (match labels.getLast? with
     | some t => emailTldOk t
     | none => false)

/-- Modelled from the spec: "Email: trimmed, must parse as a valid email".
The email-format check itself lives in the external schema-validation library
(not part of this repository); it is modelled as: exactly one `@`, a local
part per `emailLocalOk`, and a domain per `emailDomainOk`. -/
def isValidEmail (s : String) : Bool :=
  match splitAtChar '@' s.data with
  | some (loc, dom) => !dom.contains '@' && emailLocalOk loc && emailDomainOk dom
  | none => false

/-- The raw values of the four form fields (and also the validated data shape,
`ContactFormData` in part_000 line 16). -/
structure ContactFormData where
  name : String
  email : String
  number : String
  message : String
deriving DecidableEq

/-- `z.string().trim().min(2, "Digite seu nome completo.")`. -/
def validateName (s : String) : Option String :=
  if 2 ≤ (jsTrim s).length then none else some "Digite seu nome completo."

/-- `z.string().trim().email("Digite um e-mail válido.")`. -/
def validateEmail (s : String) : Option String :=
  if isValidEmail (jsTrim s) then none else some "Digite um e-mail válido."

/-- `z.string().regex(/^\(\d{2}\) \d{4,5}-\d{4}$/, "Digite um número válido.")`. -/
def validateNumber (s : String) : Option String :=
  if phoneRegexMatch s then none else some "Digite um número válido."

/-- `z.string().trim().min(5, "A mensagem deve ter pelo menos 5 caracteres.")`. -/
def validateMessage (s : String) : Option String :=
  if 5 ≤ (jsTrim s).length then none else some "A mensagem deve ter pelo menos 5 caracteres."

/-- The per-field error messages produced by one validation pass. -/
structure FieldErrors where
  name : Option String
  email : Option String
  number : Option String
  message : Option String
deriving DecidableEq

/-- `contactSchema` applied to the four raw field values: every field is
checked and its error message, if any, recorded. -/
def contactSchemaCheck (i : ContactFormData) : FieldErrors where
  name := validateName i.name
  email := validateEmail i.email
  number := validateNumber i.number
  message := validateMessage i.message

/-- Whether any field failed validation. -/
def hasErrors (e : FieldErrors) : Bool :=
  e.name.isSome || e.email.isSome || e.number.isSome || e.message.isSome

/-- `contactSchema.parse`: on success the `.trim()` transforms are applied to
`name`, `email` and `message` (the `number` field has no trim). -/
def contactSchemaParse (i : ContactFormData) : Except FieldErrors ContactFormData :=
  let e := contactSchemaCheck i
  if hasErrors e then .error e
  else .ok ⟨jsTrim i.name, jsTrim i.email, i.number, jsTrim i.message⟩

/-- Modelled from the spec: `handleSubmit(onSubmit)` (part_000 line 133) runs
schema validation and invokes the submission handler only when it passes;
on failure the per-field errors render inline and no submission happens. -/
def handleSubmitGate (i : ContactFormData) : Option ContactFormData :=
  match contactSchemaParse i with
  | .ok d => some d
  | .error _ => none

/-! ### JSON serialization (`JSON.stringify(data)`, part_000 line 80)

`JSON.stringify` on the data object emits the keys in insertion order
(`name`, `email`, `number`, `message`) and escapes `"`, `\` and control
characters in string values. -/

/-- The lowercase hex digit for `n < 16`. -/
def hexDigitChar (n : Nat) : Char :=
  if n < 10 then Char.ofNat (48 + n) else Char.ofNat (87 + n)

/-- How `JSON.stringify` renders one character inside a string literal. -/
def jsonEscapeChar (c : Char) : List Char :=
  if c = '"' then ['\\', '"']
  else if c = '\\' then ['\\', '\\']
  else if c = '\x08' then ['\\', 'b']
  else if c = '\x0c' then ['\\', 'f']
  else if c = '\n' then ['\\', 'n']
  else if c = '\r' then ['\\', 'r']
  else if c = '\t' then ['\\', 't']
  else if c.toNat < 32 then
    ['\\', 'u', '0', '0', hexDigitChar (c.toNat / 16), hexDigitChar (c.toNat % 16)]
  else [c]

/-- A JSON string literal for `s`. -/
def jsonString (s : String) : String :=
  String.mk ('"' :: s.data.flatMap jsonEscapeChar ++ ['"'])

/-- `JSON.stringify({ name, email, number, message })`. -/
def jsonSerialize (d : ContactFormData) : String :=
  "\x7b" ++ jsonString "name" ++ ":" ++ jsonString d.name ++
    "," ++ jsonString "email" ++ ":" ++ jsonString d.email ++
    "," ++ jsonString "number" ++ ":" ++ jsonString d.number ++
    "," ++ jsonString "message" ++ ":" ++ jsonString d.message ++ "\x7d"

/-! ### The submission flow (`onSubmit`, part_000 lines 72-93) -/

/-- The tri-state submission status is `Option SubmitOutcomeStatus`:
`none` is the initial `null`. -/
inductive SubmitOutcomeStatus where
  | success
  | error
deriving DecidableEq

/-- The component state touched by `onSubmit`: the two `useState` cells and
the displayed form-field values (which `reset()` clears). -/
structure FormState where
  isSubmitting : Bool
  status : Option SubmitOutcomeStatus
  fields : ContactFormData
deriving DecidableEq

/-- `reset()` restores the form to its default (empty) field values. -/
def emptyFields : ContactFormData := ⟨"", "", "", ""⟩

/-- The outcome of the awaited `fetch` call: either a response arrived with
some HTTP status code (only `response.ok`, i.e. membership of the 2xx range,
is ever read from it — no response body is parsed), or the call threw. -/
inductive FetchResult where
  | response (code : Nat)
  | thrown
deriving DecidableEq

/-- `Response.ok`: the status code is in the 2xx range. -/
def httpOk (code : Nat) : Bool :=
  200 ≤ code && code < 300

/-- One outbound HTTP request as issued by `fetch` (part_000 lines 77-81). -/
structure Request where
  url : String
  method : String
  contentType : String
  body : String
deriving DecidableEq

/-- The single request `onSubmit` issues for validated data `d`. -/
def sendEmailRequest (d : ContactFormData) : Request where
  url := "/api/send-email"
  method := "POST"
  contentType := "application/json"
  body := jsonSerialize d

/-- Lines 73-74: every run of `onSubmit` first sets `isSubmitting` to `true`
and `status` to `null`. -/
def onSubmitStart (st : FormState) : FormState :=
  { st with isSubmitting := true, status := none }

/-- Lines 76-92: after the `fetch` resolves or throws, the status is set from
`response.ok`, the fields are reset only on `ok`, and the `finally` block sets
`isSubmitting` back to `false` on every path. -/
def onSubmitFinish (st : FormState) (out : FetchResult) : FormState :=
  match out with
  | .response code =>
    if httpOk code then
      { st with status := some .success, fields := emptyFields, isSubmitting := false }
    else
      { st with status := some .error, isSubmitting := false }
  | .thrown =>
    { st with status := some .error, isSubmitting := false }

/-- One complete run of `onSubmit` on validated data `d` from state `st`, with
the fetch resolving to `out`: the final state and the requests issued. -/
def onSubmitRun (d : ContactFormData) (st : FormState) (out : FetchResult) :
    FormState × List Request :=
  (onSubmitFinish (onSubmitStart st) out, [sendEmailRequest d])

/-- Lines 202-213: the message rendered for each status value. -/
def statusMessage : Option SubmitOutcomeStatus → Option String
  | some .success => some "Mensagem enviada com sucesso!"
  | some .error => some "Erro ao enviar. Tente novamente."
  | none => none

/-- Line 191: `disabled={isSubmitting}` on the submit button. -/
def submitButtonDisabled (st : FormState) : Bool :=
  st.isSubmitting

/-- Modelled from the spec: a disabled submit control ignores a submit attempt
(browser semantics; "a second submit attempt while one is in flight should be
ignored by the caller (disabling the submit control during submission is the
intended mechanism)"), so an attempt while the button is disabled issues no
request and leaves the state unchanged. -/
def attemptSubmit (d : ContactFormData) (st : FormState) (out : FetchResult) :
    FormState × List Request :=
  if submitButtonDisabled st then (st, []) else onSubmitRun d st out

/-! ### Particle-background script cleanup (Particles.tsx lines 266-273) -/

/-- A `<script>` element, identified by its `src` attribute. -/
structure ScriptElem where
  src : String
deriving DecidableEq

/-- The CDN URL the mount effect injects (Particles.tsx line 141). -/
def particlesCdnUrl : String :=
  "https://cdn.jsdelivr.net/particles.js/2.0.0/particles.min.js"

/-- Whether `needle` occurs as a contiguous substring of the character list. -/
def hasSubstr (needle : List Char) : List Char → Bool
  | [] => needle.isEmpty
  | c :: l => needle.isPrefixOf (c :: l) || hasSubstr needle l

/-- The CSS selector `script[src*="particles.min.js"]`: `src` contains the
substring `particles.min.js`. -/
def matchesParticlesSelector (e : ScriptElem) : Bool :=
  hasSubstr "particles.min.js".data e.src.data

/-- The unmount cleanup: every script element matched by the selector is
removed from the document (modelled as the list of script elements). -/
def cleanupScripts (doc : List ScriptElem) : List ScriptElem :=
  doc.filter (fun e => !matchesParticlesSelector e)

/-! ### Lemmas about the phone formatter -/

lemma stripNonDigits_all_digit (s : String) : ∀ c ∈ stripNonDigits s, c.isDigit :=
  fun _ hc => (List.mem_filter.mp hc).2

lemma formatDigits_of_ge11 (d : List Char) (h : 11 ≤ d.length) :
    formatDigits d =
      '(' :: d.take 2 ++ ')' :: ' ' :: ((d.drop 2).take 5 ++ '-' :: (d.drop 7).take 4) := by
  simp [formatDigits, h]

lemma formatDigits_of_len10 (d : List Char) (h : 10 ≤ d.length) (h' : ¬ 11 ≤ d.length) :
    formatDigits d =
      '(' :: d.take 2 ++ ')' :: ' ' :: ((d.drop 2).take 4 ++ '-' :: (d.drop 6).take 4) := by
  simp [formatDigits, h, h']

lemma formatDigits_of_len_2_9 (d : List Char) (h : 2 ≤ d.length) (h' : ¬ 10 ≤ d.length) :
    formatDigits d = '(' :: d.take 2 ++ ')' :: ' ' :: d.drop 2 := by
  have h'' : ¬ 11 ≤ d.length := by omega
  simp [formatDigits, h, h', h'']

lemma formatDigits_of_short (d : List Char) (h : ¬ 2 ≤ d.length) :
    formatDigits d = d := by
  have h' : ¬ 11 ≤ d.length := by omega
  have h'' : ¬ 10 ≤ d.length := by omega
  simp [formatDigits, h, h', h'']

/-- The digit characters of a formatted number: the formatting characters are
all non-digits, so only the (at most 11) payload digits survive. -/
lemma filter_formatDigits (d : List Char) (hd : ∀ c ∈ d, c.isDigit) :
    (formatDigits d).filter Char.isDigit = if 11 ≤ d.length then d.take 11 else d := by
  have hsub : ∀ l : List Char, (∀ c ∈ l, c ∈ d) → l.filter Char.isDigit = l :=
    fun l hl => List.filter_eq_self.mpr fun c hc => hd c (hl c hc)
  by_cases h11 : 11 ≤ d.length
  · rw [if_pos h11, formatDigits_of_ge11 d h11]
    have h1 := hsub (d.take 2) fun c hc => List.mem_of_mem_take hc
    have h2 := hsub ((d.drop 2).take 5)
      fun c hc => List.mem_of_mem_drop (List.mem_of_mem_take hc)
    have h3 := hsub ((d.drop 7).take 4)
      fun c hc => List.mem_of_mem_drop (List.mem_of_mem_take hc)
    have hsplit : d.take 11 = d.take 2 ++ ((d.drop 2).take 5 ++ (d.drop 7).take 4) := by
      rw [show (11 : Nat) = 2 + 9 from rfl, List.take_add,
        show (9 : Nat) = 5 + 4 from rfl, List.take_add, List.drop_drop]
    simp [List.filter_append, h1, h2, h3, hsplit]
  · rw [if_neg h11]
    by_cases h10 : 10 ≤ d.length
    · rw [formatDigits_of_len10 d h10 h11]
      have h1 := hsub (d.take 2) fun c hc => List.mem_of_mem_take hc
      have h2 := hsub ((d.drop 2).take 4)
        fun c hc => List.mem_of_mem_drop (List.mem_of_mem_take hc)
      have h3 := hsub ((d.drop 6).take 4)
        fun c hc => List.mem_of_mem_drop (List.mem_of_mem_take hc)
      have hlen : d.length = 10 := by omega
      have hsplit : d = d.take 2 ++ ((d.drop 2).take 4 ++ (d.drop 6).take 4) := by
        conv_lhs => rw [← List.take_of_length_le (le_of_eq hlen)]
        rw [show (10 : Nat) = 2 + 8 from rfl, List.take_add,
          show (8 : Nat) = 4 + 4 from rfl, List.take_add, List.drop_drop]
      simp only [List.filter_cons, List.filter_append, h1, h2, h3]
      simp [← hsplit]
    · by_cases h2 : 2 ≤ d.length
      · rw [formatDigits_of_len_2_9 d h2 h10]
        have ht := hsub (d.take 2) fun c hc => List.mem_of_mem_take hc
        have hdr := hsub (d.drop 2) fun c hc => List.mem_of_mem_drop hc
        simp [List.filter_append, ht, hdr]
      · rw [formatDigits_of_short d h2, List.filter_eq_self.mpr hd]

/-- Formatting only looks at the first 11 digits. -/
lemma formatDigits_take11 (d : List Char) (h : 11 ≤ d.length) :
    formatDigits (d.take 11) = formatDigits d := by
  have hlen : (d.take 11).length = 11 := by
    rw [List.length_take]; omega
  rw [formatDigits_of_ge11 (d.take 11) (le_of_eq hlen.symm), formatDigits_of_ge11 d h]
  have e1 : (d.take 11).take 2 = d.take 2 := by
    rw [List.take_take]; norm_num
  have e2 : ((d.take 11).drop 2).take 5 = (d.drop 2).take 5 := by
    rw [List.drop_take, List.take_take]; norm_num
  have e3 : ((d.take 11).drop 7).take 4 = (d.drop 7).take 4 := by
    rw [List.drop_take, List.take_take]; norm_num
  rw [e1, e2, e3]

/-- `formatPhoneNumber` is idempotent on every string: the inserted formatting
characters are non-digits, so the second pass sees the same digit list
(truncated to 11, which formatting ignores anyway). -/
lemma formatPhoneNumber_idem (s : String) :
    formatPhoneNumber (formatPhoneNumber s) = formatPhoneNumber s := by
  have hdata : ∀ l : List Char, (String.mk l).data = l := fun _ => rfl
  unfold formatPhoneNumber stripNonDigits
  rw [hdata, filter_formatDigits (s.data.filter Char.isDigit)
    (fun _ hc => (List.mem_filter.mp hc).2)]
  by_cases h : 11 ≤ (s.data.filter Char.isDigit).length
  · rw [if_pos h, formatDigits_take11 _ h]
  · rw [if_neg h]

/-! ### Lemmas about the phone regex matcher -/

lemma consumeDigits_append (l r : List Char) (h : ∀ c ∈ l, c.isDigit) :
    consumeDigits l.length (l ++ r) = some r := by
  induction l with
  | nil => rfl
  | cons c t ih =>
    have hc := h c (List.mem_cons_self c t)
    have ih' := ih fun x hx => h x (List.mem_cons_of_mem c hx)
    show consumeDigits (t.length + 1) (c :: (t ++ r)) = some r
    unfold consumeDigits
    rw [if_pos hc]
    exact ih'

lemma consumeLit_cons (c : Char) (r : List Char) : consumeLit c (c :: r) = some r := by
  simp [consumeLit]

/-- Any string of shape `(` + two digits + `) ` + four-or-five digits + `-` +
four digits matches the phone regex. -/
lemma phoneRegexMatch_shape (pre mid post : List Char)
    (hpre : pre.length = 2) (hpred : ∀ c ∈ pre, c.isDigit)
    (hmid : mid.length = 4 ∨ mid.length = 5) (hmidd : ∀ c ∈ mid, c.isDigit)
    (hpost : post.length = 4) (hpostd : ∀ c ∈ post, c.isDigit) :
    phoneRegexMatch
      (String.mk ('(' :: pre ++ ')' :: ' ' :: (mid ++ '-' :: post))) = true := by
  have hpost' : consumeDigits 4 post = some [] := by
    have h := consumeDigits_append post [] hpostd
    rwa [hpost, List.append_nil] at h
  have hpre' : consumeDigits 2 (pre ++ ')' :: ' ' :: (mid ++ '-' :: post))
      = some (')' :: ' ' :: (mid ++ '-' :: post)) := by
    have h := consumeDigits_append pre (')' :: ' ' :: (mid ++ '-' :: post)) hpred
    rwa [hpre] at h
  have hrest : phonePrefixRest
      (String.mk ('(' :: pre ++ ')' :: ' ' :: (mid ++ '-' :: post)))
      = some (mid ++ '-' :: post) := by
    unfold phonePrefixRest
    show ((((consumeLit '(' ('(' :: (pre ++ ')' :: ' ' :: (mid ++ '-' :: post)))).bind
      (consumeDigits 2)).bind (consumeLit ')')).bind (consumeLit ' ')) = _
    rw [consumeLit_cons, Option.some_bind, hpre', Option.some_bind,
      consumeLit_cons, Option.some_bind, consumeLit_cons]
  unfold phoneRegexMatch
  rw [hrest, Option.some_bind]
  rcases hmid with h4 | h5
  · have hmid' : consumeDigits 4 (mid ++ '-' :: post) = some ('-' :: post) := by
      have h := consumeDigits_append mid ('-' :: post) hmidd
      rwa [h4] at h
    rw [hmid', Option.some_bind, Option.some_bind, consumeLit_cons,
      Option.some_bind, hpost']
    simp
  · have hm : mid ++ '-' :: post = mid.take 4 ++ (mid.drop 4 ++ '-' :: post) := by
      rw [← List.append_assoc, List.take_append_drop]
    have hlen4 : (mid.take 4).length = 4 := by
      rw [List.length_take]; omega
    obtain ⟨e, he⟩ : ∃ e, mid.drop 4 = [e] :=
      List.length_eq_one.mp (by rw [List.length_drop, h5])
    have hed : e.isDigit := by
      have hme : e ∈ mid.drop 4 := by rw [he]; exact List.mem_singleton.mpr rfl
      exact hmidd e (List.mem_of_mem_drop hme)
    have hmid' : consumeDigits 4 (mid ++ '-' :: post) = some (e :: '-' :: post) := by
      have h := consumeDigits_append (mid.take 4) (mid.drop 4 ++ '-' :: post)
        fun c hc => hmidd c (List.mem_of_mem_take hc)
      rw [hlen4, ← hm, he] at h
      exact h
    have hne : ¬ (e = '-') := by
      intro hcon
      rw [hcon] at hed
      exact absurd hed (by decide)
    have hfirst : consumeLit '-' (e :: '-' :: post) = none := by
      simp [consumeLit, hne]
    have hsecond : consumeDigits 1 (e :: '-' :: post) = some ('-' :: post) := by
      simp [consumeDigits, hed]
    rw [hmid', Option.some_bind, Option.some_bind, hfirst, Option.none_bind,
      hsecond, Option.some_bind, consumeLit_cons, Option.some_bind, hpost']
    simp

/-- Ten or more digits always format to a string matching the submission
regex. -/
lemma phoneRegexMatch_format_of_ge10 (s : String)
    (h : 10 ≤ (stripNonDigits s).length) :
    phoneRegexMatch (formatPhoneNumber s) = true := by
  set d := stripNonDigits s with hd
  have hdig : ∀ c ∈ d, c.isDigit := stripNonDigits_all_digit s
  by_cases h11 : 11 ≤ d.length
  · rw [show formatPhoneNumber s = String.mk (formatDigits d) from rfl,
      formatDigits_of_ge11 d h11]
    exact phoneRegexMatch_shape (d.take 2) ((d.drop 2).take 5) ((d.drop 7).take 4)
      (by rw [List.length_take]; omega)
      (fun c hc => hdig c (List.mem_of_mem_take hc))
      (Or.inr (by rw [List.length_take, List.length_drop]; omega))
      (fun c hc => hdig c (List.mem_of_mem_drop (List.mem_of_mem_take hc)))
      (by rw [List.length_take, List.length_drop]; omega)
      (fun c hc => hdig c (List.mem_of_mem_drop (List.mem_of_mem_take hc)))
  · rw [show formatPhoneNumber s = String.mk (formatDigits d) from rfl,
      formatDigits_of_len10 d h h11]
    exact phoneRegexMatch_shape (d.take 2) ((d.drop 2).take 4) ((d.drop 6).take 4)
      (by rw [List.length_take]; omega)
      (fun c hc => hdig c (List.mem_of_mem_take hc))
      (Or.inl (by rw [List.length_take, List.length_drop]; omega))
      (fun c hc => hdig c (List.mem_of_mem_drop (List.mem_of_mem_take hc)))
      (by rw [List.length_take, List.length_drop]; omega)
      (fun c hc => hdig c (List.mem_of_mem_drop (List.mem_of_mem_take hc)))

/-! ### Lemmas about the schema validators -/

lemma validateName_of_short {s : String} (h : (jsTrim s).length < 2) :
    validateName s = some "Digite seu nome completo." := by
  unfold validateName
  rw [if_neg (by omega)]

lemma validateEmail_of_invalid {s : String} (h : isValidEmail (jsTrim s) = false) :
    validateEmail s = some "Digite um e-mail válido." := by
  simp [validateEmail, h]

lemma validateNumber_of_invalid {s : String} (h : phoneRegexMatch s = false) :
    validateNumber s = some "Digite um número válido." := by
  simp [validateNumber, h]

lemma validateMessage_of_short {s : String} (h : (jsTrim s).length < 5) :
    validateMessage s = some "A mensagem deve ter pelo menos 5 caracteres." := by
  unfold validateMessage
  rw [if_neg (by omega)]

/-! ### The claims -/

/-- C1: whenever the trimmed name is shorter than 2 characters, or the trimmed
email is not a valid email, or the phone value does not match
`^\(\d{2}\) \d{4,5}-\d{4}$`, or the trimmed message is shorter than 5
characters, schema validation fails with the corresponding field error
message, and the submission handler is not invoked. -/
theorem c1_invalid_input_blocks_submission (i : ContactFormData)
    (h : (jsTrim i.name).length < 2 ∨ isValidEmail (jsTrim i.email) = false ∨
      phoneRegexMatch i.number = false ∨ (jsTrim i.message).length < 5) :
    (∃ e : FieldErrors, contactSchemaParse i = .error e ∧
      ((jsTrim i.name).length < 2 → e.name = some "Digite seu nome completo.") ∧
      (isValidEmail (jsTrim i.email) = false →
        e.email = some "Digite um e-mail válido.") ∧
      (phoneRegexMatch i.number = false →
        e.number = some "Digite um número válido.") ∧
      ((jsTrim i.message).length < 5 →
        e.message = some "A mensagem deve ter pelo menos 5 caracteres.")) ∧
    handleSubmitGate i = none := by
  have herr : hasErrors (contactSchemaCheck i) = true := by
    rcases h with h | h | h | h
    · simp [hasErrors, contactSchemaCheck, validateName_of_short h]
    · simp [hasErrors, contactSchemaCheck, validateEmail_of_invalid h]
    · simp [hasErrors, contactSchemaCheck, validateNumber_of_invalid h]
    · simp [hasErrors, contactSchemaCheck, validateMessage_of_short h]
  have hpe : contactSchemaParse i = .error (contactSchemaCheck i) := by
    simp [contactSchemaParse, herr]
  refine ⟨⟨contactSchemaCheck i, hpe, ?_, ?_, ?_, ?_⟩, ?_⟩
  · exact fun hn => validateName_of_short hn
  · exact fun he => validateEmail_of_invalid he
  · exact fun hn => validateNumber_of_invalid hn
  · exact fun hm => validateMessage_of_short hm
  · simp [handleSubmitGate, hpe]

/-- Witness for C1 at a concrete input whose name is too short. -/
theorem c1_witness :
    ((jsTrim "A").length < 2 ∨ isValidEmail (jsTrim "buzz@example.com") = false ∨
      phoneRegexMatch "(11) 98765-4321" = false ∨
      (jsTrim "Mensagem de teste").length < 5) ∧
    handleSubmitGate ⟨"A", "buzz@example.com", "(11) 98765-4321",
      "Mensagem de teste"⟩ = none :=
  ⟨by decide,
    (c1_invalid_input_blocks_submission
      ⟨"A", "buzz@example.com", "(11) 98765-4321", "Mensagem de teste"⟩
      (by decide)).2⟩

/-- C2: a 2xx response sets the status to success and clears the fields; a
non-2xx response or a thrown request sets the status to error, leaves the
field values unchanged, and renders the single generic message
"Erro ao enviar. Tente novamente.", with no distinction between the two
failure causes. -/
theorem c2_resolution_behavior (d : ContactFormData) (st : FormState) (code : Nat) :
    (httpOk code = true →
      (onSubmitRun d st (.response code)).1.status = some .success ∧
      (onSubmitRun d st (.response code)).1.fields = emptyFields) ∧
    (httpOk code = false →
      (onSubmitRun d st (.response code)).1.status = some .error ∧
      (onSubmitRun d st (.response code)).1.fields = st.fields ∧
      statusMessage (onSubmitRun d st (.response code)).1.status =
        some "Erro ao enviar. Tente novamente." ∧
      onSubmitRun d st (.response code) = onSubmitRun d st .thrown) ∧
    ((onSubmitRun d st .thrown).1.status = some .error ∧
      (onSubmitRun d st .thrown).1.fields = st.fields ∧
      statusMessage (onSubmitRun d st .thrown).1.status =
        some "Erro ao enviar. Tente novamente.") := by
  refine ⟨fun h => ?_, fun h => ?_, ?_⟩ <;>
    simp [onSubmitRun, onSubmitFinish, onSubmitStart, statusMessage, *]

/-- Witness for C2 at the spec's example data, a 200 and a 404 response. -/
theorem c2_witness :
    httpOk 200 = true ∧
    (onSubmitRun
      ⟨"Buzz Lightyear", "buzz@example.com", "(11) 98765-4321",
        "Preciso de um orçamento"⟩
      ⟨false, none, ⟨"Buzz Lightyear", "buzz@example.com", "(11) 98765-4321",
        "Preciso de um orçamento"⟩⟩
      (.response 200)).1.status = some .success ∧
    httpOk 404 = false ∧
    statusMessage (onSubmitRun
      ⟨"Buzz Lightyear", "buzz@example.com", "(11) 98765-4321",
        "Preciso de um orçamento"⟩
      ⟨false, none, ⟨"Buzz Lightyear", "buzz@example.com", "(11) 98765-4321",
        "Preciso de um orçamento"⟩⟩
      (.response 404)).1.status = some "Erro ao enviar. Tente novamente." :=
  ⟨by decide,
    ((c2_resolution_behavior _ _ 200).1 (by decide)).1,
    by decide,
    ((c2_resolution_behavior _ _ 404).2.1 (by decide)).2.2.1⟩

/-- C3: `formatPhoneNumber` strips all non-digits first; with exactly 11
digits it returns `(DD) DDDDD-DDDD` over those digits, with exactly 10 digits
`(DD) DDDD-DDDD`, and with fewer than 2 digits the digit string unformatted. -/
theorem c3_format_by_digit_count (s : String) :
    ((stripNonDigits s).length = 11 →
      (formatPhoneNumber s).data =
        '(' :: (stripNonDigits s).take 2 ++ ')' :: ' ' ::
          (((stripNonDigits s).drop 2).take 5 ++
            '-' :: ((stripNonDigits s).drop 7).take 4) ∧
      phoneRegexMatch (formatPhoneNumber s) = true) ∧
    ((stripNonDigits s).length = 10 →
      (formatPhoneNumber s).data =
        '(' :: (stripNonDigits s).take 2 ++ ')' :: ' ' ::
          (((stripNonDigits s).drop 2).take 4 ++
            '-' :: ((stripNonDigits s).drop 6).take 4) ∧
      phoneRegexMatch (formatPhoneNumber s) = true) ∧
    ((stripNonDigits s).length < 2 →
      (formatPhoneNumber s).data = stripNonDigits s) := by
  refine ⟨fun h11 => ⟨?_, ?_⟩, fun h10 => ⟨?_, ?_⟩, fun h2 => ?_⟩
  · show formatDigits (stripNonDigits s) = _
    exact formatDigits_of_ge11 _ (le_of_eq h11.symm)
  · exact phoneRegexMatch_format_of_ge10 s (by omega)
  · show formatDigits (stripNonDigits s) = _
    exact formatDigits_of_len10 _ (le_of_eq h10.symm) (by omega)
  · exact phoneRegexMatch_format_of_ge10 s (by omega)
  · show formatDigits (stripNonDigits s) = _
    exact formatDigits_of_short _ (by omega)

/-- Witness for C3 at an 11-digit, a 10-digit and a 1-digit input. -/
theorem c3_witness :
    ((stripNonDigits "11987654321").length = 11 ∧
      phoneRegexMatch (formatPhoneNumber "11987654321") = true) ∧
    ((stripNonDigits "1198765432").length = 10 ∧
      phoneRegexMatch (formatPhoneNumber "1198765432") = true) ∧
    ((stripNonDigits "7").length < 2 ∧
      (formatPhoneNumber "7").data = stripNonDigits "7") :=
  ⟨⟨by decide, ((c3_format_by_digit_count "11987654321").1 (by decide)).2⟩,
    ⟨by decide, ((c3_format_by_digit_count "1198765432").2.1 (by decide)).2⟩,
    ⟨by decide, (c3_format_by_digit_count "7").2.2 (by decide)⟩⟩

/-- C4: the three concrete reformattings from the spec, and idempotence of
`formatPhoneNumber` on every input with 10 or 11 digits. -/
theorem c4_examples_and_idempotence :
    formatPhoneNumber "11987654321" = "(11) 98765-4321" ∧
    formatPhoneNumber "1198765432" = "(11) 9876-5432" ∧
    formatPhoneNumber "11" = "(11) " ∧
    ∀ s : String,
      (stripNonDigits s).length = 10 ∨ (stripNonDigits s).length = 11 →
      formatPhoneNumber (formatPhoneNumber s) = formatPhoneNumber s :=
  ⟨by decide, by decide, by decide, fun s _ => formatPhoneNumber_idem s⟩

/-- Witness for C4 at an already-formatted 11-digit number. -/
theorem c4_witness :
    ((stripNonDigits "(11) 98765-4321").length = 10 ∨
      (stripNonDigits "(11) 98765-4321").length = 11) ∧
    formatPhoneNumber (formatPhoneNumber "(11) 98765-4321") =
      formatPhoneNumber "(11) 98765-4321" :=
  ⟨by decide, c4_examples_and_idempotence.2.2.2 "(11) 98765-4321" (by decide)⟩

/-- C5: one run of the submission handler issues exactly one request — a POST
to `/api/send-email` with `Content-Type: application/json` and the JSON
serialization of the data as its body — and reads nothing but the ok-range of
the response. -/
theorem c5_single_post_request (d : ContactFormData) (st : FormState)
    (out : FetchResult) :
    (onSubmitRun d st out).2 = [sendEmailRequest d] ∧
    (sendEmailRequest d).method = "POST" ∧
    (sendEmailRequest d).url = "/api/send-email" ∧
    (sendEmailRequest d).contentType = "application/json" ∧
    (sendEmailRequest d).body = jsonSerialize d ∧
    ∀ c c' : Nat, httpOk c = httpOk c' →
      onSubmitRun d st (.response c) = onSubmitRun d st (.response c') := by
  refine ⟨rfl, rfl, rfl, rfl, rfl, fun c c' h => ?_⟩
  simp [onSubmitRun, onSubmitFinish, h]

/-- Witness for C5 at the spec's example data, including the exact serialized
JSON body. -/
theorem c5_witness :
    (onSubmitRun
      ⟨"Buzz Lightyear", "buzz@example.com", "(11) 98765-4321",
        "Preciso de um orçamento"⟩
      ⟨false, none, emptyFields⟩ .thrown).2 =
      [sendEmailRequest
        ⟨"Buzz Lightyear", "buzz@example.com", "(11) 98765-4321",
          "Preciso de um orçamento"⟩] ∧
    (sendEmailRequest
      ⟨"Buzz Lightyear", "buzz@example.com", "(11) 98765-4321",
        "Preciso de um orçamento"⟩).body =
      "\x7b\"name\":\"Buzz Lightyear\",\"email\":\"buzz@example.com\",\"number\":\"(11) 98765-4321\",\"message\":\"Preciso de um orçamento\"\x7d" ∧
    httpOk 204 = httpOk 299 ∧
    onSubmitRun
      ⟨"Buzz Lightyear", "buzz@example.com", "(11) 98765-4321",
        "Preciso de um orçamento"⟩
      ⟨false, none, emptyFields⟩ (.response 204) =
    onSubmitRun
      ⟨"Buzz Lightyear", "buzz@example.com", "(11) 98765-4321",
        "Preciso de um orçamento"⟩
      ⟨false, none, emptyFields⟩ (.response 299) :=
  ⟨(c5_single_post_request _ ⟨false, none, emptyFields⟩ .thrown).1,
    by decide,
    by decide,
    (c5_single_post_request _ ⟨false, none, emptyFields⟩ .thrown).2.2.2.2.2
      204 299 (by decide)⟩

/-- C6: every run of the submission handler starts by setting `isSubmitting`
to `true` and `status` to `null`, and ends with `isSubmitting` back at
`false` on the success path, the non-2xx path and the thrown path alike. -/
theorem c6_submitting_lifecycle (d : ContactFormData) (st : FormState)
    (out : FetchResult) :
    (onSubmitStart st).isSubmitting = true ∧
    (onSubmitStart st).status = none ∧
    (onSubmitRun d st out).1 = onSubmitFinish (onSubmitStart st) out ∧
    (onSubmitRun d st out).1.isSubmitting = false := by
  refine ⟨rfl, rfl, rfl, ?_⟩
  cases out with
  | response code =>
    show (onSubmitFinish (onSubmitStart st) (.response code)).isSubmitting = false
    simp only [onSubmitFinish]
    split <;> rfl
  | thrown => rfl

/-- C7: the submit control is disabled exactly when `isSubmitting` is true,
and a submit attempt in that state issues no request and changes nothing, so
at most one request is in flight at any time. -/
theorem c7_inflight_gate (d : ContactFormData) (st : FormState)
    (out : FetchResult) :
    submitButtonDisabled st = st.isSubmitting ∧
    (st.isSubmitting = true → attemptSubmit d st out = (st, [])) ∧
    (attemptSubmit d st out).2.length ≤ 1 := by
  refine ⟨rfl, fun h => ?_, ?_⟩
  · simp [attemptSubmit, submitButtonDisabled, h]
  · unfold attemptSubmit
    split
    · simp
    · simp [onSubmitRun]

/-- Witness for C7 at a state with a submission in flight. -/
theorem c7_witness :
    (⟨true, none, emptyFields⟩ : FormState).isSubmitting = true ∧
    attemptSubmit ⟨"a", "b", "c", "d"⟩ ⟨true, none, emptyFields⟩ .thrown =
      (⟨true, none, emptyFields⟩, []) :=
  ⟨rfl, (c7_inflight_gate ⟨"a", "b", "c", "d"⟩ ⟨true, none, emptyFields⟩
    .thrown).2.1 rfl⟩

/-- C8: after the unmount cleanup, no script element whose `src` is the CDN
URL remains in the document — the cleanup removes every element matched by
the selector `script[src*="particles.min.js"]`, which covers the CDN URL. -/
theorem c8_cleanup_removes_cdn_scripts (doc : List ScriptElem) :
    ((cleanupScripts doc).all fun e => !(e.src == particlesCdnUrl)) = true ∧
    ((cleanupScripts doc).all fun e => !matchesParticlesSelector e) = true := by
  have hsel : ∀ e ∈ cleanupScripts doc, (!matchesParticlesSelector e) = true :=
    fun e he => (List.mem_filter.mp he).2
  refine ⟨List.all_eq_true.mpr fun e he => ?_, List.all_eq_true.mpr hsel⟩
  have h1 := hsel e he
  rw [Bool.not_eq_true'] at h1 ⊢
  rw [beq_eq_false_iff_ne]
  intro hsrc
  have h2 : matchesParticlesSelector e = true := by
    cases e with
    | mk src =>
      simp only at hsrc
      rw [hsrc]
      decide
  rw [h2] at h1
  cases h1

/-- C9: `formatPhoneNumber` is idempotent on every input string, and its
output depends only on the digit subsequence of the input. -/
theorem c9_idempotent_on_all_inputs (s : String) :
    formatPhoneNumber (formatPhoneNumber s) = formatPhoneNumber s ∧
    ∀ t : String, stripNonDigits t = stripNonDigits s →
      formatPhoneNumber t = formatPhoneNumber s :=
  ⟨formatPhoneNumber_idem s,
    fun _ ht => congrArg (fun d => String.mk (formatDigits d)) ht⟩

/-- Witness for C9: a formatted and an unformatted spelling of the same
number have the same digits, hence the same formatting. -/
theorem c9_witness :
    stripNonDigits "(11) 98765-4321" = stripNonDigits "11987654321" ∧
    formatPhoneNumber "(11) 98765-4321" = formatPhoneNumber "11987654321" :=
  ⟨by decide,
    (c9_idempotent_on_all_inputs "11987654321").2 "(11) 98765-4321" (by decide)⟩

/-- C10: any input with 10 or more digits formats to a string matching the
submission regex; an input with more than 11 digits is not rejected but
silently truncated to its first 11 digits before formatting. -/
theorem c10_ten_plus_digits_always_match (s : String) :
    (10 ≤ (stripNonDigits s).length →
      phoneRegexMatch (formatPhoneNumber s) = true) ∧
    (11 < (stripNonDigits s).length →
      formatPhoneNumber s = String.mk (formatDigits ((stripNonDigits s).take 11))) := by
  refine ⟨phoneRegexMatch_format_of_ge10 s, fun h => ?_⟩
  show String.mk (formatDigits (stripNonDigits s)) = _
  rw [formatDigits_take11 _ (by omega)]

/-- Witness for C10 at a 15-digit input. -/
theorem c10_witness :
    10 ≤ (stripNonDigits "119876543219999").length ∧
    phoneRegexMatch (formatPhoneNumber "119876543219999") = true ∧
    11 < (stripNonDigits "119876543219999").length ∧
    formatPhoneNumber "119876543219999" =
      String.mk (formatDigits ((stripNonDigits "119876543219999").take 11)) :=
  ⟨by decide,
    (c10_ten_plus_digits_always_match "119876543219999").1 (by decide),
    by decide,
    (c10_ten_plus_digits_always_match "119876543219999").2 (by decide)⟩

end Portfolio
